import Mathlib

/-!
Shallow embedding of `FLL2025Missions.py`: a mission selector and launcher for
a two-wheel differential-drive robot, with an emergency-stop check, a gyro
based turn routine, thin motion-primitive wrappers, and six hard-coded
missions.  All numeric quantities (headings in degrees, speeds, distances in
cm/mm) are modelled as `Int`: every constant appearing in a control decision
of the source is an integer.  Effects on the robot are modelled as an explicit
actuator state plus a trace of device commands; the polled button input and
the heading sensor are modelled as environment functions of the poll tick.
-/

namespace FLL

/-- The four motors of the robot: the two drive motors (ports A/B) and the two
attachment motors (ports C/D). -/
inductive MotorId where
  | leftM | rightM | motorC | motorD
deriving DecidableEq

/-- One command issued to a device, as listed in the external interface of the
drive base, the motors, and the speaker.  `robotTurn` is the drive-base
relative-turn call offered by the `DriveBase` abstraction; it appears in the
vocabulary so that "no drive-base turn is ever issued" is expressible. -/
inductive Cmd where
  | robotStop
  | robotSettings (straightSpeed straightAccel : Int)
  | robotStraight (distMm : Int)
  | robotTurn (angleDeg : Int)
  | motorRun (m : MotorId) (speed : Int)
  | motorStop (m : MotorId)
  | motorRunAngle (m : MotorId) (speed degrees : Int)
  | beep (freq durMs : Int)
  | resetHeading (v : Int)
deriving DecidableEq

/-- Commands addressed to an actuator (drive base or a motor), as opposed to
feedback (speaker) or the heading sensor. -/
def isActuatorCmd : Cmd → Bool
  | .robotStop => true
  | .robotSettings _ _ => true
  | .robotStraight _ => true
  | .robotTurn _ => true
  | .motorRun _ _ => true
  | .motorStop _ => true
  | .motorRunAngle _ _ _ => true
  | .beep _ _ => false
  | .resetHeading _ => false

/-- Commands that stop an actuator. -/
def isStopCmd : Cmd → Bool
  | .robotStop => true
  | .motorStop _ => true
  | _ => false

/-- Drive-base motion commands (straight or turn). -/
def isDriveBaseMotion : Cmd → Bool
  | .robotStraight _ => true
  | .robotTurn _ => true
  | _ => false

/-- Drive-base relative-turn commands only. -/
def isDriveBaseTurn : Cmd → Bool
  | .robotTurn _ => true
  | _ => false

/-- State of the actuators.  `driveActive` records whether the drive base is
engaged (moving or actively holding after a motion call); `leftRun` etc. hold
`some v` while the motor is running under a `run` command at speed `v`, and
`none` when it is stopped or has completed a blocking `run_angle` call.  The
`straightSpeed`/`straightAccel` fields are the drive base's stored settings. -/
structure ActState where
  driveActive : Bool
  leftRun : Option Int
  rightRun : Option Int
  cRun : Option Int
  dRun : Option Int
  straightSpeed : Int
  straightAccel : Int
deriving DecidableEq

/-- Update the run state of one motor. -/
def setRun (s : ActState) (m : MotorId) (v : Option Int) : ActState :=
  match m with
  | .leftM => { s with leftRun := v }
  | .rightM => { s with rightRun := v }
  | .motorC => { s with cRun := v }
  | .motorD => { s with dRun := v }

/-- Effect of one command on the actuator state.  A blocking
`robot.straight` leaves the drive base engaged (holding) until an explicit
`robot.stop`; a blocking `Motor.run_angle` has completed by the time the call
returns, so the motor is no longer commanded to move. -/
def applyCmd (s : ActState) : Cmd → ActState
  | .robotStop => { s with driveActive := false }
  | .robotSettings sp ac => { s with straightSpeed := sp, straightAccel := ac }
  | .robotStraight _ => { s with driveActive := true }
  | .robotTurn _ => { s with driveActive := true }
  | .motorRun m v => setRun s m (some v)
  | .motorStop m => setRun s m none
  | .motorRunAngle m _ _ => setRun s m none
  | .beep _ _ => s
  | .resetHeading _ => s

/-- Apply a list of commands in order. -/
def applyCmds (s : ActState) (cs : List Cmd) : ActState :=
  cs.foldl applyCmd s

/-- Every actuator is stopped: the drive base is disengaged and no motor is
running. -/
def allStopped (s : ActState) : Prop :=
  s.driveActive = false ∧ s.leftRun = none ∧ s.rightRun = none ∧
    s.cRun = none ∧ s.dRun = none

instance (s : ActState) : Decidable (allStopped s) := by
  unfold allStopped; infer_instance

/-- The command block issued by `emergency_stop_check` when the CENTER button
is pressed (source lines 42-47): stop the drive base, stop all four motors,
then a low beep, after which `RuntimeError("Emergency stop")` is raised. -/
def emergencyStopCmds : List Cmd :=
  [Cmd.robotStop, Cmd.motorStop .leftM, Cmd.motorStop .rightM,
   Cmd.motorStop .motorC, Cmd.motorStop .motorD, Cmd.beep 200 300]

/-- Embedding of `emergency_stop_check` (source lines 38-48).  `some` is the
raising path: it carries the post-stop actuator state and the commands issued
before the `RuntimeError` propagates; `none` means the button was not pressed
and nothing happened. -/
def emergency_stop_check (centerPressed : Bool) (s : ActState) :
    Option (ActState × List Cmd) :=
  if centerPressed then some (applyCmds s emergencyStopCmds, emergencyStopCmds)
  else none

/-- Environment seen by one `gyro_turn` call: at poll tick `t` of its loop,
whether the CENTER button is pressed, and the IMU heading reading. -/
structure TurnEnv where
  center : Nat → Bool
  heading : Nat → Int

/-- Heading normalization inside `gyro_turn`'s loop (source lines 89-90): a
reading strictly above 180 has 360 subtracted once; every other reading —
including readings at or below -180 — is left unchanged. -/
def normHeading (h : Int) : Int :=
  if h > 180 then h - 360 else h

/-- Outcome of the `gyro_turn` loop: `done` is the normal `break` (after which
the two drive motors are stopped), `aborted` means `emergency_stop_check`
raised, `fuelOut` means the loop was still running after the modelled number
of iterations (the source loop has no other exit). -/
inductive TurnOutcome where
  | done
  | aborted
  | fuelOut
deriving DecidableEq

/-- Result of a `gyro_turn` call: its outcome, the normalized heading sampled
at the `break` (for `done`), the actuator state, and the command trace. -/
structure GyroRes where
  outcome : TurnOutcome
  exitHeading : Option Int
  state : ActState
  trace : List Cmd
deriving DecidableEq

/-- The `while True` loop of `gyro_turn` (source lines 84-102), one
constructor case per iteration: poll the emergency stop, sample and normalize
the heading, exit when `abs(heading) >= abs(target_deg)`, otherwise run the
two drive motors in opposite directions and wait 10 ms.  `fuel` bounds the
number of modelled iterations; `t` is the current poll tick. -/
def gyroLoop (env : TurnEnv) (target speed turnSpeed : Int) :
    Nat → Nat → ActState → List Cmd → GyroRes
  | 0, _, s, tr => ⟨.fuelOut, none, s, tr⟩
  | fuel+1, t, s, tr =>
    match emergency_stop_check (env.center t) s with
    | some (s1, cs) => ⟨.aborted, none, s1, tr ++ cs⟩
    | none =>
      let h := normHeading (env.heading t)
      if |h| ≥ |target| then ⟨.done, some h, s, tr⟩
      else
        let runCs := if target > 0 then
            [Cmd.motorRun .leftM (-speed), Cmd.motorRun .rightM (turnSpeed * speed)]
          else
            [Cmd.motorRun .leftM (turnSpeed * speed), Cmd.motorRun .rightM (-speed)]
        gyroLoop env target speed turnSpeed fuel (t+1) (applyCmds s runCs) (tr ++ runCs)

/-- Embedding of `gyro_turn(target_deg, slow_turn, axis_turn)` (source lines
71-106): reset the heading to 0, pick `speed = 100` if `slow_turn` else `400`
and `turn_speed = 1` if `axis_turn` else `3` (the source's `power` variable is
computed but never used), run the polling loop, and on a normal `break` stop
the two drive motors.  On the abort path the `RuntimeError` propagates, so the
final motor stops of lines 104-105 are never reached. -/
def gyro_turn (env : TurnEnv) (fuel : Nat) (target : Int)
    (slowTurn axisTurn : Bool) (s : ActState) : GyroRes :=
  let speed : Int := if slowTurn then 100 else 400
  let turnSpeed : Int := if axisTurn then 1 else 3
  let r := gyroLoop env target speed turnSpeed fuel 0 s [Cmd.resetHeading 0]
  if r.outcome = .done then
    ⟨.done, r.exitHeading,
      applyCmds r.state [Cmd.motorStop .leftM, Cmd.motorStop .rightM],
      r.trace ++ [Cmd.motorStop .leftM, Cmd.motorStop .rightM]⟩
  else r

/-- Result reported by the external `DriveBase.straight` call: it either
completes, or raises a device fault (an opaque error code) that the wrapper
does not handle. -/
inductive DevRes where
  | ok
  | fault (e : Nat)
deriving DecidableEq

/-- Result of a `drive_cm` call: the propagated device result, the actuator
state, and the command trace. -/
structure DriveOut where
  result : DevRes
  state : ActState
  trace : List Cmd
deriving DecidableEq

/-- Embedding of `drive_cm(distance_cm, velocity_cm_s, acceleration_cm_s2)`
(source lines 56-64): convert each caller value from cm units to device mm
units by multiplying by 10, store the speed/acceleration settings, issue one
blocking `robot.straight`, then `robot.stop`.  `dev` is the behaviour of the
external straight call; on a fault the exception propagates unchanged, so the
final `robot.stop` is never reached. -/
def drive_cm (dev : DevRes) (distanceCm velocityCmS accelCmS2 : Int)
    (s : ActState) : DriveOut :=
  let distMm := distanceCm * 10
  let speedMmS := velocityCmS * 10
  let accelMmS2 := accelCmS2 * 10
  match dev with
  | .fault e =>
      ⟨.fault e,
        applyCmds s [Cmd.robotSettings speedMmS accelMmS2, Cmd.robotStraight distMm],
        [Cmd.robotSettings speedMmS accelMmS2, Cmd.robotStraight distMm]⟩
  | .ok =>
      ⟨.ok,
        applyCmds s [Cmd.robotSettings speedMmS accelMmS2, Cmd.robotStraight distMm,
          Cmd.robotStop],
        [Cmd.robotSettings speedMmS accelMmS2, Cmd.robotStraight distMm,
          Cmd.robotStop]⟩

/-- Embedding of `setup_drive()` (source lines 50-54): stop the drive base,
store the default settings `straight_speed=300, straight_acceleration=300`,
then `beep_ok` (a 900 Hz, 80 ms beep). -/
def setup_drive (s : ActState) : ActState × List Cmd :=
  (applyCmds s [Cmd.robotStop, Cmd.robotSettings 300 300, Cmd.beep 900 80],
   [Cmd.robotStop, Cmd.robotSettings 300 300, Cmd.beep 900 80])

/-- Embedding of `run_motor_for_degrees(m, degrees, speed)` (source lines
66-69): one blocking `Motor.run_angle(speed, degrees)` call.  The `accel` and
`stop` parameters of the source are defaulted and unused in the body apart
from the `then=stop` hold mode. -/
def run_motor_for_degrees (m : MotorId) (degrees speed : Int)
    (s : ActState) : ActState × List Cmd :=
  (applyCmd s (Cmd.motorRunAngle m speed degrees),
   [Cmd.motorRunAngle m speed degrees])

/-- One step of a mission function's body, in source order: `setup_drive`,
`drive_cm`, `gyro_turn`, `run_motor_for_degrees`, a `wait`, or a bare
`hub.imu.reset_heading(0)` (followed in the source by a short wait). -/
inductive Step where
  | setup
  | drive (distanceCm velocityCmS accelCmS2 : Int)
  | turn (targetDeg : Int) (slowTurn axisTurn : Bool)
  | motorMove (m : MotorId) (degrees speed : Int)
  | pause (ms : Int)
  | resetH
deriving DecidableEq

/-- Steps of `mission_0` (source lines 112-133). -/
def missionSteps0 : List Step :=
  [.setup, .drive 15 30 50, .turn 10 true true, .pause 500,
   .drive 55 100 50, .turn (-55) true true, .drive 10 30 30,
   .motorMove .motorD (-1000) 1000, .motorMove .motorC 200 1000,
   .drive (-4) 30 50, .turn 40 false true, .drive (-60) 30 50,
   .turn 45 false true, .drive (-30) 30 50]

/-- Steps of `mission_1` (source lines 135-165). -/
def missionSteps1 : List Step :=
  [.setup, .resetH, .drive 14 30 50, .turn 45 true true,
   .motorMove .motorC 150 720, .drive 33 30 50,
   .motorMove .motorC (-120) 100, .motorMove .motorD (-720) 500,
   .motorMove .motorC 180 1440, .motorMove .motorD 720 360,
   .drive (-35) 30 30, .pause 200, .drive 10 30 50,
   .turn (-30) false true, .drive (-15) 300 50,
   .motorMove .motorC (-120) 1000, .turn 60 false true, .drive (-40) 300 50]

/-- Steps of `mission_2` (source lines 167-190), with the three-iteration
wiggle loop unrolled.  The source drives `-15.5` cm at line 184; quantities
are modelled in whole units, so the half centimetre is dropped — no claim
depends on this datum. -/
def missionSteps2 : List Step :=
  [.setup, .resetH, .drive 37 30 50,
   .motorMove .motorC (-180) 750, .motorMove .motorC 180 750,
   .motorMove .motorC (-180) 750, .motorMove .motorC 180 750,
   .motorMove .motorC (-180) 750, .motorMove .motorC 180 750,
   .drive (-15) 30 50, .resetH, .turn 90 true true, .drive 195 500 500]

/-- Steps of `mission_3` (source lines 192-200). -/
def missionSteps3 : List Step :=
  [.setup, .drive 41 30 5, .drive (-15) 17 15, .drive 31 15 10,
   .drive (-50) 30 10]

/-- Steps of `mission_4` (source lines 202-226). -/
def missionSteps4 : List Step :=
  [.setup, .drive 69 20 500, .turn 43 true true, .drive 23 30 200,
   .motorMove .motorD 180 1000, .motorMove .motorC 150 300, .pause 1000,
   .motorMove .motorC 200 1000, .motorMove .motorC (-300) 500,
   .drive (-22) 17 500, .turn 140 false true, .drive 61 30 500]

/-- Steps of `mission_5` (source lines 228-247); note `gyro_turn(31,
slow_turn=True, axis_turn=False)` at line 244. -/
def missionSteps5 : List Step :=
  [.setup, .resetH, .drive 73 30 100, .turn (-90) true true,
   .drive 23 30 5, .turn (-30) true true, .drive 4 30 5,
   .motorMove .motorD (-600) 1000, .drive 10 30 5,
   .motorMove .motorD 500 300, .drive (-35) 30 5,
   .turn 31 true false, .motorMove .motorD (-500) 300,
   .drive 10 30 5, .motorMove .motorD 500 300]

/-- The `MISSIONS` table (source lines 266-273), as the six step lists. -/
def MISSIONS : List (List Step) :=
  [missionSteps0, missionSteps1, missionSteps2, missionSteps3,
   missionSteps4, missionSteps5]

/-- Environment for one mission run: `turnEnv k` is the button/heading
environment seen by step `k` when it is a `gyro_turn`; `fuel` is the
iteration budget modelling that loop; `stepFails k = some e` injects a
collaborator exception (error code `e`) at the dispatch of step `k`. -/
structure MEnv where
  turnEnv : Nat → TurnEnv
  fuel : Nat
  stepFails : Nat → Option Nat

/-- Result of dispatching one step: it returns normally, a collaborator
exception propagates, the emergency-stop `RuntimeError` propagates, or the
step's inner loop exceeded the modelled iteration budget. -/
inductive StepRes where
  | ok
  | raised (e : Nat)
  | abortedRun
  | hung
deriving DecidableEq

/-- Step result corresponding to a turn outcome: a normal `break` is a
normal return, the emergency-stop `RuntimeError` propagates, and an
exhausted iteration budget is the still-spinning loop. -/
def stepResOf (o : TurnOutcome) : StepRes :=
  if o = .done then .ok else if o = .aborted then .abortedRun else .hung

/-- Dispatch the step at position `k` in actuator state `s`. -/
def execStep (menv : MEnv) (k : Nat) (st : Step) (s : ActState) :
    StepRes × ActState × List Cmd :=
  match menv.stepFails k with
  | some e => (.raised e, s, [])
  | none =>
    match st with
    | .setup => ((.ok : StepRes), (setup_drive s).1, (setup_drive s).2)
    | .drive d v a =>
        ((.ok : StepRes), (drive_cm .ok d v a s).state, (drive_cm .ok d v a s).trace)
    | .turn tgt sl ax =>
        let r := gyro_turn (menv.turnEnv k) menv.fuel tgt sl ax s
        (stepResOf r.outcome, r.state, r.trace)
    | .motorMove m deg sp =>
        ((.ok : StepRes), (run_motor_for_degrees m deg sp s).1,
          (run_motor_for_degrees m deg sp s).2)
    | .pause _ => ((.ok : StepRes), s, [])
    | .resetH => ((.ok : StepRes), s, [Cmd.resetHeading 0])

/-- Result of running a mission's step list: the first non-`ok` step result
(or `ok`), the final actuator state, the accumulated command trace, and how
many steps were dispatched. -/
structure RunRes where
  res : StepRes
  state : ActState
  trace : List Cmd
  dispatched : Nat
deriving DecidableEq

/-- Run the steps in order from position `k`, stopping at the first step
whose dispatch does not return normally (a propagating exception skips every
later call in the mission function's body). -/
def runSteps (menv : MEnv) : Nat → List Step → ActState → RunRes
  | _, [], s => ⟨.ok, s, [], 0⟩
  | k, st :: rest, s =>
    let e := execStep menv k st s
    match e.1 with
    | .ok =>
        let r := runSteps menv (k+1) rest e.2.1
        ⟨r.res, r.state, e.2.2 ++ r.trace, r.dispatched + 1⟩
    | .raised e2 => ⟨.raised e2, e.2.1, e.2.2, 1⟩
    | .abortedRun => ⟨.abortedRun, e.2.1, e.2.2, 1⟩
    | .hung => ⟨.hung, e.2.1, e.2.2, 1⟩

/-- What the launch site reports after `fn()` (source lines 317-322):
`completed` is the normal return with the done beep; `caught` is the
`except Exception` branch with the error beep — both the emergency-stop
`RuntimeError` and any collaborator exception land there; `hungRun` is the
modelling artefact for a mission whose turn loop never finished. -/
inductive Outcome where
  | completed
  | caught
  | hungRun
deriving DecidableEq

/-- Result of the Bluetooth-start branch of `main` (source lines 310-333):
outcome, final actuator state, trace, and the selection index the loop shows
when it is back at the idle display. -/
structure LaunchRes where
  outcome : Outcome
  state : ActState
  trace : List Cmd
  selectedAfter : Int
deriving DecidableEq

/-- Launch the selected mission's steps under `try/except` (source lines
317-327): on normal completion beep 600 Hz, on any exception beep 200 Hz;
either way control returns to the selector, which redisplays the unchanged
selection. -/
def launch (menv : MEnv) (steps : List Step) (s : ActState)
    (selected : Int) : LaunchRes :=
  let r := runSteps menv 0 steps s
  match r.res with
  | .ok => ⟨.completed, r.state, r.trace ++ [Cmd.beep 600 150], selected⟩
  | .raised _ => ⟨.caught, r.state, r.trace ++ [Cmd.beep 200 500], selected⟩
  | .abortedRun => ⟨.caught, r.state, r.trace ++ [Cmd.beep 200 500], selected⟩
  | .hung => ⟨.hungRun, r.state, r.trace, selected⟩

/-- Buttons sampled by one iteration of the selector loop. -/
structure ButtonSet where
  center : Bool
  bluetooth : Bool
  leftB : Bool
  rightB : Bool

/-- Result of one iteration of `main`'s `while True` loop: either an uncaught
exception terminates the program (`crashed`), or the loop continues with a
new selection, reporting the launched mission's outcome when one ran. -/
inductive LoopRes where
  | crashed (state : ActState) (trace : List Cmd)
  | cont (state : ActState) (trace : List Cmd) (selected : Int)
      (outcome : Option Outcome)
deriving DecidableEq

/-- Selection increment on a RIGHT tap (source line 337):
`selected = (selected + 1) % len(MISSIONS)`, with Python's nonnegative `%`
(`Int.emod`). -/
def nextSel (i : Int) : Int := (i + 1) % (MISSIONS.length : Int)

/-- Selection decrement on a LEFT tap (source line 344):
`selected = (selected - 1) % len(MISSIONS)`. -/
def prevSel (i : Int) : Int := (i - 1) % (MISSIONS.length : Int)

/-- One iteration of `main`'s loop (source lines 305-349):
`emergency_stop_check()` first — a CENTER press here stops everything and
raises a `RuntimeError` that nothing in `main` catches, terminating the
program; then a BLUETOOTH press launches the selected mission and continues;
otherwise RIGHT/LEFT taps cycle the selection modulo `len(MISSIONS)`. -/
def mainLoopStep (menv : MEnv) (missions : List (List Step))
    (btns : ButtonSet) (s : ActState) (selected : Int) : LoopRes :=
  match emergency_stop_check btns.center s with
  | some (s1, cs) => .crashed s1 cs
  | none =>
    if btns.bluetooth then
      let r := launch menv (missions.getD selected.toNat []) s selected
      .cont r.state r.trace r.selectedAfter (some r.outcome)
    else
      let sel1 := if btns.rightB then (selected + 1) % (missions.length : Int)
        else selected
      let sel2 := if btns.leftB then (sel1 - 1) % (missions.length : Int)
        else sel1
      .cont s [] sel2 none

/-- Whether a loop iteration result continues the selector loop. -/
def isCont : LoopRes → Bool
  | .cont _ _ _ _ => true
  | .crashed _ _ => false

/-- An actuator state with everything stopped and the default settings. -/
def stoppedState : ActState := ⟨false, none, none, none, none, 300, 300⟩

/-- Environment whose CENTER button is pressed from the first poll on. -/
def envAbortNow : TurnEnv := ⟨fun _ => true, fun _ => 0⟩

/-- Environment where the CENTER button is never pressed and the heading
sensor reports 170° from the first sample on (e.g. the robot was rotated
before the loop's first poll). -/
def envFar : TurnEnv := ⟨fun _ => false, fun _ => 170⟩

/-- Environment where the CENTER button is never pressed and the heading
reads 0° at the first sample, then 90°. -/
def envTwoSample : TurnEnv :=
  ⟨fun _ => false, fun t => if t = 0 then 0 else 90⟩

/-- Environment where the CENTER button is never pressed and the heading
sensor is stuck at 0° (e.g. a faulted IMU). -/
def envStuck : TurnEnv := ⟨fun _ => false, fun _ => 0⟩

/-- Mission environment whose every turn step aborts at its first poll. -/
def menvAbort : MEnv := ⟨fun _ => envAbortNow, 3, fun _ => none⟩

/-- Mission environment with no abort, no failure injection, and no turn
iterations needed. -/
def menvIdle : MEnv := ⟨fun _ => envStuck, 0, fun _ => none⟩

/-!  Shared lemmas about the actuator state. -/

theorem setRun_straightSpeed (s : ActState) (m : MotorId) (v : Option Int) :
    (setRun s m v).straightSpeed = s.straightSpeed := by
  cases m <;> rfl

theorem setRun_straightAccel (s : ActState) (m : MotorId) (v : Option Int) :
    (setRun s m v).straightAccel = s.straightAccel := by
  cases m <;> rfl

theorem applyCmds_estop (s : ActState) :
    applyCmds s emergencyStopCmds =
      { s with driveActive := false, leftRun := none, rightRun := none,
               cRun := none, dRun := none } := by
  rfl

theorem allStopped_estop (s : ActState) :
    allStopped (applyCmds s emergencyStopCmds) := by
  rw [applyCmds_estop]
  exact ⟨rfl, rfl, rfl, rfl, rfl⟩

/-! Claims C2, C3, C4: the correction-free reality of `gyro_turn`. -/

/-- C2.  The claim says a `gyro_turn` that returns reporting success leaves
`|final_heading − target_delta_deg| ≤ settle_tolerance_deg`.  The source loop
has no tolerance check at all: it exits as soon as `abs(heading) >=
abs(target_deg)`, so the heading at exit can lie arbitrarily far beyond the
target.  With the heading sensor reading 170° at the first sample of a 90°
turn, the loop exits normally with a heading error of 80°, far outside the
2° tolerance the spec's scenario and the repository's own tests use. -/
theorem gyro_turn_done_outside_tolerance :
    (gyro_turn envFar 5 90 false true stoppedState).outcome = .done
    ∧ (gyro_turn envFar 5 90 false true stoppedState).exitHeading = some 170
    ∧ ¬ |(170 : Int) - 90| ≤ 2 := by
  decide

/-- C3.  The claim says the correction loop never runs longer than
`settle_timeout_ms` and then returns TimedOut.  The source loop has no
timeout: with the heading sensor stuck at 0° and a 90° target, the loop is
still running after any number of iterations, so `gyro_turn` never returns
at all on that input. -/
theorem gyroLoop_stuck (n t : Nat) (s : ActState) (tr : List Cmd) :
    (gyroLoop envStuck 90 400 1 n t s tr).outcome = .fuelOut := by
  induction n generalizing t s tr with
  | zero => rfl
  | succ m ih =>
      rw [gyroLoop]
      simp only [envStuck, emergency_stop_check, normHeading]
      norm_num
      exact ih (t+1) _ _

theorem gyro_turn_correction_loop_unbounded :
    (∀ (n t : Nat) (s : ActState) (tr : List Cmd),
        (gyroLoop envStuck 90 400 1 n t s tr).outcome = .fuelOut)
    ∧ ∀ (n : Nat) (s : ActState),
        (gyro_turn envStuck n 90 false true s).outcome = .fuelOut := by
  refine ⟨gyroLoop_stuck, fun n s => ?_⟩
  have h := gyroLoop_stuck n 0 s [Cmd.resetHeading 0]
  simp only [gyro_turn, Bool.false_eq_true, if_false, if_true]
  rw [if_neg (by rw [h]; decide)]
  exact h

/-- C4.  The claim says `gyro_turn`'s first motion command is a single
open-loop drive-base turn of `target_delta_deg * bulk_fraction` (87.3° for a
90° target), followed by one slow correction.  The source has no bulk phase:
on a 90° target (fast mode, spin in place) its first actuator command is
`left_motor.run(-400)`, and its trace contains no drive-base turn — indeed no
drive-base motion command at all. -/
theorem gyro_turn_has_no_bulk_phase :
    (gyro_turn envTwoSample 5 90 false true stoppedState).outcome = .done
    ∧ ((gyro_turn envTwoSample 5 90 false true stoppedState).trace.filter
        isActuatorCmd).head? = some (Cmd.motorRun .leftM (-400))
    ∧ (gyro_turn envTwoSample 5 90 false true stoppedState).trace.filter
        isDriveBaseTurn = []
    ∧ (gyro_turn envTwoSample 5 90 false true stoppedState).trace.filter
        isDriveBaseMotion = [] := by
  decide

/-! Claim C7: heading normalization. -/

/-- C7 counterexample.  The claim says every sensor reading outside
(-180, 180] — whether above 180 or at or below -180 — is mapped into that
interval.  A reading of -181 is left unchanged at -181, outside the
interval. -/
theorem normHeading_leaves_low_readings :
    normHeading (-181) = -181
    ∧ ¬ (-180 < normHeading (-181) ∧ normHeading (-181) ≤ 180) := by
  decide

/-- C7 as amended.  Before each comparison, `gyro_turn` replaces a heading
reading `h` by `h - 360` exactly when `h > 180` and leaves it unchanged
otherwise; consequently readings in (180, 540] land in (-180, 180], while
readings at or below -180 are not remapped. -/
theorem normHeading_characterization :
    ∀ h : Int,
      (180 < h → normHeading h = h - 360)
      ∧ (h ≤ 180 → normHeading h = h)
      ∧ (180 < h → h ≤ 540 → -180 < normHeading h ∧ normHeading h ≤ 180) := by
  intro h
  unfold normHeading
  refine ⟨fun hgt => ?_, fun hle => ?_, fun hgt hle => ?_⟩
  · rw [if_pos hgt]
  · rw [if_neg (by omega)]
  · rw [if_pos hgt]; omega

/-- Witness for C7's amended theorem at concrete readings 200 and 100. -/
theorem normHeading_characterization_w :
    normHeading 200 = 200 - 360 ∧ normHeading 100 = 100 :=
  ⟨(normHeading_characterization 200).1 (by decide),
   (normHeading_characterization 100).2.1 (by decide)⟩

/-! Claim C8: selection wraparound. -/

theorem MISSIONS_length : (MISSIONS.length : Int) = 6 := rfl

theorem prevSel_nextSel {i : Int} (h0 : 0 ≤ i) (h1 : i < 6) :
    prevSel (nextSel i) = i := by
  unfold prevSel nextSel
  rw [MISSIONS_length]
  omega

theorem nextSel_range {i : Int} (h0 : 0 ≤ i) (h1 : i < 6) :
    0 ≤ nextSel i ∧ nextSel i < 6 := by
  unfold nextSel
  rw [MISSIONS_length]
  omega

/-- C8.  With `mission_count = len(MISSIONS) = 6` and Python's nonnegative
`%`: LEFT at index 0 selects 5, RIGHT at index 5 selects 0, and applying
Next `n` times and then Previous `n` times returns any in-range selection to
itself. -/
theorem selection_next_prev_roundtrip :
    prevSel 0 = 5 ∧ nextSel 5 = 0 ∧
      ∀ (i : Int), 0 ≤ i → i < 6 →
        ∀ n : Nat, prevSel^[n] (nextSel^[n] i) = i := by
  refine ⟨by decide, by decide, fun i h0 h1 n => ?_⟩
  induction n generalizing i with
  | zero => rfl
  | succ m ih =>
      rw [Function.iterate_succ_apply', Function.iterate_succ_apply]
      rw [ih (nextSel i) (nextSel_range h0 h1).1 (nextSel_range h0 h1).2]
      exact prevSel_nextSel h0 h1

/-- Witness for C8 at index 2 with three Next/Previous applications. -/
theorem selection_next_prev_roundtrip_w :
    prevSel^[3] (nextSel^[3] 2) = 2 :=
  selection_next_prev_roundtrip.2.2 2 (by decide) (by decide) 3

/-! Claim C1: abort safety. -/

theorem gyroLoop_aborted (env : TurnEnv) (target speed ts : Int) :
    ∀ (fuel t : Nat) (s : ActState) (tr : List Cmd),
    (gyroLoop env target speed ts fuel t s tr).outcome = .aborted →
    allStopped (gyroLoop env target speed ts fuel t s tr).state
    ∧ ∃ p, (gyroLoop env target speed ts fuel t s tr).trace = p ++ emergencyStopCmds := by
  intro fuel
  induction fuel with
  | zero =>
      intro t s tr h
      simp [gyroLoop] at h
  | succ m ih =>
      intro t s tr h
      cases hc : env.center t with
      | true =>
          simp only [gyroLoop, emergency_stop_check, hc, if_true] at h ⊢
          exact ⟨allStopped_estop s, tr, rfl⟩
      | false =>
          by_cases hd : |normHeading (env.heading t)| ≥ |target|
          · simp [gyroLoop, emergency_stop_check, hc, hd] at h
          · simp only [gyroLoop, emergency_stop_check, hc, Bool.false_eq_true,
              if_false, if_neg hd] at h ⊢
            exact ih (t+1) _ _ h

theorem gyro_turn_aborted (env : TurnEnv) (fuel : Nat) (target : Int)
    (sl ax : Bool) (s : ActState)
    (h : (gyro_turn env fuel target sl ax s).outcome = .aborted) :
    allStopped (gyro_turn env fuel target sl ax s).state
    ∧ ∃ p, (gyro_turn env fuel target sl ax s).trace = p ++ emergencyStopCmds := by
  have hg := gyroLoop_aborted env target (if sl then 100 else 400)
    (if ax then 1 else 3) fuel 0 s [Cmd.resetHeading 0]
  simp only [gyro_turn] at h ⊢
  by_cases hdone : (gyroLoop env target (if sl then 100 else 400) (if ax then 1 else 3)
      fuel 0 s [Cmd.resetHeading 0]).outcome = .done
  · rw [if_pos hdone] at h
    simp at h
  · rw [if_neg hdone] at h ⊢
    exact hg h

theorem stepResOf_aborted (o : TurnOutcome) :
    stepResOf o = .abortedRun ↔ o = .aborted := by
  cases o <;> simp [stepResOf]

theorem execStep_aborted (menv : MEnv) (k : Nat) (st : Step) (s : ActState)
    (h : (execStep menv k st s).1 = .abortedRun) :
    allStopped (execStep menv k st s).2.1
    ∧ ∃ p, (execStep menv k st s).2.2 = p ++ emergencyStopCmds := by
  cases hf : menv.stepFails k with
  | some e =>
      simp only [execStep, hf] at h
      exact StepRes.noConfusion h
  | none =>
      cases st with
      | setup => simp only [execStep, hf] at h; exact StepRes.noConfusion h
      | drive d v a => simp only [execStep, hf] at h; exact StepRes.noConfusion h
      | turn tgt sl ax =>
          simp only [execStep, hf] at h ⊢
          have ha : (gyro_turn (menv.turnEnv k) menv.fuel tgt sl ax s).outcome
              = .aborted := (stepResOf_aborted _).mp h
          exact gyro_turn_aborted _ _ _ _ _ _ ha
      | motorMove m deg sp => simp only [execStep, hf] at h; exact StepRes.noConfusion h
      | pause ms => simp only [execStep, hf] at h; exact StepRes.noConfusion h
      | resetH => simp only [execStep, hf] at h; exact StepRes.noConfusion h

theorem runSteps_aborted (menv : MEnv) :
    ∀ (steps : List Step) (k : Nat) (s : ActState),
    (runSteps menv k steps s).res = .abortedRun →
    allStopped (runSteps menv k steps s).state
    ∧ ∃ p, (runSteps menv k steps s).trace = p ++ emergencyStopCmds := by
  intro steps
  induction steps with
  | nil =>
      intro k s h
      exact StepRes.noConfusion h
  | cons st rest ih =>
      intro k s h
      simp only [runSteps] at h ⊢
      cases he : (execStep menv k st s).1 with
      | ok =>
          rw [he] at h
          obtain ⟨h1, p, h2⟩ := ih (k+1) (execStep menv k st s).2.1 h
          refine ⟨h1, (execStep menv k st s).2.2 ++ p, ?_⟩
          show (execStep menv k st s).2.2
              ++ (runSteps menv (k+1) rest (execStep menv k st s).2.1).trace
            = ((execStep menv k st s).2.2 ++ p) ++ emergencyStopCmds
          rw [h2, List.append_assoc]
      | raised e2 => rw [he] at h; simp at h
      | abortedRun => exact execStep_aborted menv k st s he
      | hung => rw [he] at h; simp at h

/-- C1.  Whenever the abort input is observed during a mission run — the only
observation points are `emergency_stop_check`, polled each iteration of
`gyro_turn`'s loop (and in the selector loop between runs) — the raising path
has already commanded the drive base and all four motors to stop (the only
actuator commands in the emergency-stop block are stop commands); the
propagating `RuntimeError` ends the run with the command trace ending at that
stop block, so no further actuator command is issued for that run; every
actuator is left stopped; and the launch site reports the caught, not
completed, outcome before redisplaying the unchanged selection. -/
theorem abort_observed_stops_run (menv : MEnv) (steps : List Step)
    (s : ActState) (h : (runSteps menv 0 steps s).res = .abortedRun) :
    allStopped (runSteps menv 0 steps s).state
    ∧ (∃ p, (runSteps menv 0 steps s).trace = p ++ emergencyStopCmds)
    ∧ (∀ c ∈ emergencyStopCmds, isActuatorCmd c = true → isStopCmd c = true)
    ∧ ∀ sel : Int, launch menv steps s sel =
        ⟨.caught, (runSteps menv 0 steps s).state,
          (runSteps menv 0 steps s).trace ++ [Cmd.beep 200 500], sel⟩ := by
  obtain ⟨h1, h2⟩ := runSteps_aborted menv steps 0 s h
  refine ⟨h1, h2, by decide, fun sel => ?_⟩
  simp only [launch, h]

/-- Witness for C1: a one-step mission whose `gyro_turn` sees the CENTER
button pressed at its first poll. -/
theorem abort_observed_stops_run_w :
    (runSteps menvAbort 0 [Step.turn 90 false true] stoppedState).res = .abortedRun
    ∧ (allStopped (runSteps menvAbort 0 [Step.turn 90 false true] stoppedState).state
      ∧ (∃ p, (runSteps menvAbort 0 [Step.turn 90 false true] stoppedState).trace
          = p ++ emergencyStopCmds)
      ∧ (∀ c ∈ emergencyStopCmds, isActuatorCmd c = true → isStopCmd c = true)
      ∧ ∀ sel : Int, launch menvAbort [Step.turn 90 false true] stoppedState sel =
          ⟨.caught, (runSteps menvAbort 0 [Step.turn 90 false true] stoppedState).state,
            (runSteps menvAbort 0 [Step.turn 90 false true] stoppedState).trace
              ++ [Cmd.beep 200 500], sel⟩) :=
  ⟨by decide,
   abort_observed_stops_run menvAbort [Step.turn 90 false true] stoppedState (by decide)⟩

/-! Claim C5: a failing step is caught at the launch boundary. -/

theorem runSteps_fail_at (menv : MEnv) :
    ∀ (pre : List Step) (st : Step) (post : List Step) (k : Nat)
      (s : ActState) (e : Nat),
    (runSteps menv k pre s).res = .ok →
    menv.stepFails (k + pre.length) = some e →
    runSteps menv k (pre ++ st :: post) s =
      ⟨.raised e, (runSteps menv k pre s).state,
        (runSteps menv k pre s).trace, pre.length + 1⟩ := by
  intro pre
  induction pre with
  | nil =>
      intro st post k s e _ hf
      simp only [List.length_nil, Nat.add_zero] at hf
      show runSteps menv k (st :: post) s = _
      simp only [runSteps, execStep, hf]
      rfl
  | cons x pre ih =>
      intro st post k s e hok hf
      simp only [runSteps] at hok ⊢
      cases he : (execStep menv k x s).1 with
      | ok =>
          rw [he] at hok
          have hf2 : menv.stepFails (k + 1 + pre.length) = some e := by
            have hl : k + 1 + pre.length = k + (x :: pre).length := by
              simp only [List.length_cons]
              omega
            rw [hl]
            exact hf
          have hrec := ih st post (k+1) (execStep menv k x s).2.1 e hok hf2
          show (⟨(runSteps menv (k+1) (pre ++ st :: post) (execStep menv k x s).2.1).res,
                 (runSteps menv (k+1) (pre ++ st :: post) (execStep menv k x s).2.1).state,
                 (execStep menv k x s).2.2
                   ++ (runSteps menv (k+1) (pre ++ st :: post) (execStep menv k x s).2.1).trace,
                 (runSteps menv (k+1) (pre ++ st :: post) (execStep menv k x s).2.1).dispatched + 1⟩
              : RunRes)
            = ⟨.raised e, (runSteps menv (k+1) pre (execStep menv k x s).2.1).state,
                (execStep menv k x s).2.2
                  ++ (runSteps menv (k+1) pre (execStep menv k x s).2.1).trace,
                pre.length + 1 + 1⟩
          rw [hrec]
      | raised e2 => rw [he] at hok; simp at hok
      | abortedRun => rw [he] at hok; simp at hok
      | hung => rw [he] at hok; simp at hok

/-- C5.  If the steps before position `k` of a mission all execute normally
and the collaborator serving step `k` raises, then: the earlier steps have
already run (their state and trace are final), step `k` is the last step
dispatched (`k + 1` dispatches, no step after `k` ever runs, no command after
the failure), the exception is caught exactly at the launch boundary and
reported as the failed outcome with the error beep, and the selector is back
at the idle display with the unchanged selection. -/
theorem step_failure_caught_at_boundary (menv : MEnv) (pre : List Step)
    (st : Step) (post : List Step) (s : ActState) (sel : Int) (e : Nat)
    (hok : (runSteps menv 0 pre s).res = .ok)
    (hf : menv.stepFails pre.length = some e) :
    runSteps menv 0 (pre ++ st :: post) s =
      ⟨.raised e, (runSteps menv 0 pre s).state,
        (runSteps menv 0 pre s).trace, pre.length + 1⟩
    ∧ launch menv (pre ++ st :: post) s sel =
      ⟨.caught, (runSteps menv 0 pre s).state,
        (runSteps menv 0 pre s).trace ++ [Cmd.beep 200 500], sel⟩ := by
  have hf0 : menv.stepFails (0 + pre.length) = some e := by
    rw [Nat.zero_add]
    exact hf
  have hrun := runSteps_fail_at menv pre st post 0 s e hok hf0
  refine ⟨hrun, ?_⟩
  simp only [launch, hrun]

/-- Mission environment for the C5 witness: the collaborator serving step 1
raises error 7; no abort, no turns reached. -/
def menvFail1 : MEnv :=
  ⟨fun _ => envStuck, 0, fun k => if k = 1 then some 7 else none⟩

/-- Witness for C5: mission `[setup, drive, motorMove]` whose `drive` step's
collaborator raises; `setup` runs, the failure is caught, the `motorMove`
step is never dispatched. -/
theorem step_failure_caught_at_boundary_w :
    (runSteps menvFail1 0 [Step.setup] stoppedState).res = .ok
    ∧ menvFail1.stepFails [Step.setup].length = some 7
    ∧ (runSteps menvFail1 0
        ([Step.setup] ++ Step.drive 15 30 50 :: [Step.motorMove .motorC 200 1000])
        stoppedState =
      ⟨.raised 7, (runSteps menvFail1 0 [Step.setup] stoppedState).state,
        (runSteps menvFail1 0 [Step.setup] stoppedState).trace, [Step.setup].length + 1⟩
    ∧ launch menvFail1
        ([Step.setup] ++ Step.drive 15 30 50 :: [Step.motorMove .motorC 200 1000])
        stoppedState 4 =
      ⟨.caught, (runSteps menvFail1 0 [Step.setup] stoppedState).state,
        (runSteps menvFail1 0 [Step.setup] stoppedState).trace ++ [Cmd.beep 200 500], 4⟩) :=
  ⟨by decide, by decide,
   step_failure_caught_at_boundary menvFail1 [Step.setup] (Step.drive 15 30 50)
     [Step.motorMove .motorC 200 1000] stoppedState 4 7 (by decide) (by decide)⟩

/-! Claim C6: response of the selector loop to the abort input. -/

/-- C6 counterexample.  The claim says an abort input never itself changes
the SelectorLoop's state and that after any abort — including one received
while already Idle — the program is again in a selectable idle state rather
than terminated.  In the source, a CENTER press observed by the selector
loop's own `emergency_stop_check` (line 306) raises a `RuntimeError` that no
handler in `main` catches, so the program terminates instead of remaining at
the idle display. -/
theorem abort_in_idle_terminates_program :
    mainLoopStep menvIdle MISSIONS ⟨true, false, false, false⟩ stoppedState 0
      = .crashed (applyCmds stoppedState emergencyStopCmds) emergencyStopCmds
    ∧ isCont (mainLoopStep menvIdle MISSIONS ⟨true, false, false, false⟩
        stoppedState 0) = false := by
  decide

/-- C6 as amended.  A CENTER press observed by the selector loop stops the
drive base and all four motors and then terminates the program via the
uncaught `RuntimeError`; a CENTER press observed inside a running mission is
caught at the launch boundary, and the loop continues at the idle display
with the same selection. -/
theorem abort_response_by_selector_state (menv : MEnv)
    (ms : List (List Step)) (btns : ButtonSet) (s : ActState) (sel : Int) :
    (btns.center = true →
      mainLoopStep menv ms btns s sel
        = .crashed (applyCmds s emergencyStopCmds) emergencyStopCmds
      ∧ allStopped (applyCmds s emergencyStopCmds))
    ∧ (btns.center = false → btns.bluetooth = true →
        (runSteps menv 0 (ms.getD sel.toNat []) s).res = .abortedRun →
        mainLoopStep menv ms btns s sel =
          .cont (runSteps menv 0 (ms.getD sel.toNat []) s).state
            ((runSteps menv 0 (ms.getD sel.toNat []) s).trace ++ [Cmd.beep 200 500])
            sel (some .caught)) := by
  constructor
  · intro hc
    refine ⟨?_, allStopped_estop s⟩
    simp only [mainLoopStep, emergency_stop_check, hc, if_true]
  · intro hc hb hab
    simp only [mainLoopStep, emergency_stop_check, hc, Bool.false_eq_true,
      if_false, hb, if_true, launch, hab]

/-- Witness for C6's amended theorem: a CENTER press at the idle display
crashes the program; a mission aborted mid-run returns the loop to Idle with
the same selection. -/
theorem abort_response_by_selector_state_w :
    (mainLoopStep menvIdle MISSIONS ⟨true, false, false, false⟩ stoppedState 3
      = .crashed (applyCmds stoppedState emergencyStopCmds) emergencyStopCmds
    ∧ allStopped (applyCmds stoppedState emergencyStopCmds))
    ∧ mainLoopStep menvAbort MISSIONS ⟨false, true, false, false⟩ stoppedState 0 =
        .cont (runSteps menvAbort 0 (MISSIONS.getD (0 : Int).toNat []) stoppedState).state
          ((runSteps menvAbort 0 (MISSIONS.getD (0 : Int).toNat []) stoppedState).trace
            ++ [Cmd.beep 200 500])
          0 (some .caught) :=
  ⟨(abort_response_by_selector_state menvIdle MISSIONS
      ⟨true, false, false, false⟩ stoppedState 3).1 rfl,
   (abort_response_by_selector_state menvAbort MISSIONS
      ⟨false, true, false, false⟩ stoppedState 0).2 rfl rfl (by decide)⟩

/-! Claim C9: the drive wrapper. -/

/-- C9.  `drive_cm` converts its three caller values from cm units to device
mm units by multiplying each by 10, stores the speed/acceleration settings,
and issues exactly one blocking straight-drive call; there is no retry, and a
fault raised by the drive base's straight call is returned unchanged (the
trace then ends at the straight call: nothing is issued after it). -/
theorem drive_cm_unit_conversion_single_call (d v a : Int) (s : ActState) :
    (drive_cm .ok d v a s).result = .ok
    ∧ (drive_cm .ok d v a s).trace =
        [Cmd.robotSettings (v * 10) (a * 10), Cmd.robotStraight (d * 10), Cmd.robotStop]
    ∧ ((drive_cm .ok d v a s).trace.filter isDriveBaseMotion).length = 1
    ∧ ∀ e : Nat,
        (drive_cm (.fault e) d v a s).result = .fault e
        ∧ (drive_cm (.fault e) d v a s).trace =
            [Cmd.robotSettings (v * 10) (a * 10), Cmd.robotStraight (d * 10)]
        ∧ ((drive_cm (.fault e) d v a s).trace.filter isDriveBaseMotion).length = 1 :=
  ⟨rfl, rfl, rfl, fun _ => ⟨rfl, rfl, rfl⟩⟩

/-! Claim C10: persistence of the stored drive settings. -/

theorem gyroLoop_settings (env : TurnEnv) (target speed ts : Int) :
    ∀ (fuel t : Nat) (s : ActState) (tr : List Cmd),
    (gyroLoop env target speed ts fuel t s tr).state.straightSpeed = s.straightSpeed
    ∧ (gyroLoop env target speed ts fuel t s tr).state.straightAccel = s.straightAccel := by
  intro fuel
  induction fuel with
  | zero => intro t s tr; exact ⟨rfl, rfl⟩
  | succ m ih =>
      intro t s tr
      cases hc : env.center t with
      | true =>
          simp only [gyroLoop, emergency_stop_check, hc, if_true]
          rw [applyCmds_estop]
          exact ⟨rfl, rfl⟩
      | false =>
          by_cases hd : |normHeading (env.heading t)| ≥ |target|
          · simp only [gyroLoop, emergency_stop_check, hc, Bool.false_eq_true,
              if_false, if_pos hd]
            exact ⟨by simp, by simp⟩
          · simp only [gyroLoop, emergency_stop_check, hc, Bool.false_eq_true,
              if_false, if_neg hd]
            have ihp := ih (t+1)
              (applyCmds s (if target > 0 then
                  [Cmd.motorRun .leftM (-speed), Cmd.motorRun .rightM (ts * speed)]
                else
                  [Cmd.motorRun .leftM (ts * speed), Cmd.motorRun .rightM (-speed)]))
              (tr ++ (if target > 0 then
                  [Cmd.motorRun .leftM (-speed), Cmd.motorRun .rightM (ts * speed)]
                else
                  [Cmd.motorRun .leftM (ts * speed), Cmd.motorRun .rightM (-speed)]))
            constructor
            · rw [ihp.1]
              by_cases hp : target > 0 <;> simp [hp, applyCmds, applyCmd, setRun]
            · rw [ihp.2]
              by_cases hp : target > 0 <;> simp [hp, applyCmds, applyCmd, setRun]

theorem gyro_turn_settings (env : TurnEnv) (fuel : Nat) (target : Int)
    (sl ax : Bool) (s : ActState) :
    (gyro_turn env fuel target sl ax s).state.straightSpeed = s.straightSpeed
    ∧ (gyro_turn env fuel target sl ax s).state.straightAccel = s.straightAccel := by
  have hg := gyroLoop_settings env target (if sl then 100 else 400)
    (if ax then 1 else 3) fuel 0 s [Cmd.resetHeading 0]
  simp only [gyro_turn]
  by_cases hdone : (gyroLoop env target (if sl then 100 else 400) (if ax then 1 else 3)
      fuel 0 s [Cmd.resetHeading 0]).outcome = .done
  · rw [if_pos hdone]
    constructor
    · show (applyCmds _ [Cmd.motorStop .leftM, Cmd.motorStop .rightM]).straightSpeed = _
      simp only [applyCmds, List.foldl, applyCmd, setRun]
      exact hg.1
    · show (applyCmds _ [Cmd.motorStop .leftM, Cmd.motorStop .rightM]).straightAccel = _
      simp only [applyCmds, List.foldl, applyCmd, setRun]
      exact hg.2
  · rw [if_neg hdone]
    exact hg

/-- C10.  A successful `drive_cm(d, v, a)` leaves the drive base's stored
settings at `v*10`/`a*10`; `setup_drive` — the first call of every one of the
six missions — resets them to `300`/`300`; and neither `gyro_turn` (any
environment, any budget, any arguments) nor `run_motor_for_degrees` ever
changes the stored settings, so a `drive_cm`'s settings persist until the
next `drive_cm` or `setup_drive` call. -/
theorem settings_persistence_frame :
    (∀ (d v a : Int) (s : ActState),
        (drive_cm .ok d v a s).state.straightSpeed = v * 10
        ∧ (drive_cm .ok d v a s).state.straightAccel = a * 10)
    ∧ (∀ s : ActState, (setup_drive s).1.straightSpeed = 300
        ∧ (setup_drive s).1.straightAccel = 300)
    ∧ (∀ (env : TurnEnv) (fuel : Nat) (target : Int) (sl ax : Bool) (s : ActState),
        (gyro_turn env fuel target sl ax s).state.straightSpeed = s.straightSpeed
        ∧ (gyro_turn env fuel target sl ax s).state.straightAccel = s.straightAccel)
    ∧ (∀ (m : MotorId) (deg sp : Int) (s : ActState),
        (run_motor_for_degrees m deg sp s).1.straightSpeed = s.straightSpeed
        ∧ (run_motor_for_degrees m deg sp s).1.straightAccel = s.straightAccel)
    ∧ MISSIONS.all (fun ms => ms.head? == some .setup) = true :=
  ⟨fun _ _ _ _ => ⟨rfl, rfl⟩,
   fun _ => ⟨rfl, rfl⟩,
   gyro_turn_settings,
   fun m _ _ s => ⟨setRun_straightSpeed s m none, setRun_straightAccel s m none⟩,
   by decide⟩
